import Mathlib

/-!
Verification development for the codebase state manager.

The definitions below are a shallow embedding of the Python sources:
`src/mcp_server/services/state_service.py`,
`src/mcp_server/repositories/sqlite_repository.py`,
`src/mcp_server/services/git_manager.py`,
`src/mcp_server/utils/validation.py` and `src/mcp_server/utils/retry.py`.

Python dicts are embedded as association lists (insertion ordered, keys
unique in every reachable value), machine integers as `Nat`, fallible
calls as `Except`/`Option`, and the SHA-256 digest as an abstract
function parameter `sha : String → String`.  Filesystem and database
fault behaviour is made explicit through small environment records.
-/

namespace CSM

/-- Association-list lookup, embedding Python dict indexing. -/
def lookupA {α : Type} : List (String × α) → String → Option α
  | [], _ => none
  | kv :: rest, k => if kv.1 = k then some kv.2 else lookupA rest k

/-- Association-list assignment, embedding `d[k] = v` (replaces in place, else appends). -/
def setKey {α : Type} : List (String × α) → String → α → List (String × α)
  | [], k, v => [(k, v)]
  | kv :: rest, k, v => if kv.1 = k then (k, v) :: rest else kv :: setKey rest k v

/-- Association-list removal, embedding `d.pop(k, None)`. -/
def eraseKey {α : Type} : List (String × α) → String → List (String × α)
  | [], _ => []
  | kv :: rest, k => if kv.1 = k then eraseKey rest k else kv :: eraseKey rest k

/-- Keys of an association list are pairwise distinct (every reachable Python dict satisfies this). -/
def keysNodup {α : Type} (m : List (String × α)) : Prop :=
  (m.map Prod.fst).Nodup

instance {α : Type} (m : List (String × α)) : Decidable (keysNodup m) := by
  unfold keysNodup; infer_instance

/-! ## Data model (`models/state_model.py`, table rows of `sqlite_repository.py`) -/

/-- A row of the `states` table: columns of `StateModel`.
`file_hashes` / `file_hash_deltas` are the JSON-string columns, `none` for SQL NULL;
a tombstone is JSON `null`, embedded as `Option.none` in the inner value. -/
structure StateRow where
  state_number : Nat
  user_prompt : String
  branch_name : String
  git_diff_info : String
  hash : String
  file_hashes : Option (List (String × String))
  file_hash_deltas : Option (List (String × Option String))
deriving DecidableEq

/-- A row of the `transitions` table (`TransitionModel`). -/
structure TransitionRow where
  id : Nat
  current_state : Nat
  next_state : Nat
  user_prompt : Option String
deriving DecidableEq

/-- The persistent SQLite storage: `states`, `transitions`, and the
`metadata` row with key `current_state` (`none` when that row is absent). -/
structure Storage where
  states : List StateRow
  transitions : List TransitionRow
  currentMeta : Option Nat
deriving DecidableEq

/-- The in-memory `State` object (`models/state_model.py`).  `file_hashes` is
`Optional` in Python; `file_hash_deltas` defaults to the empty dict. -/
structure State where
  state_number : Nat
  user_prompt : String
  branch_name : String
  git_diff_info : String
  hash : String
  file_hashes : Option (List (String × String))
  file_hash_deltas : List (String × Option String)
deriving DecidableEq

/-! ## Validation (`utils/validation.py`) -/

/-- CONTROL_CHARS_PATTERN of `validation.py`: \x00-\x08, \x0b, \x0c, \x0e-\x1f, \x7f. -/
def isControlChar (c : Char) : Bool :=
  (c.toNat ≤ 8) || c.toNat = 11 || c.toNat = 12 ||
    (14 ≤ c.toNat && c.toNat ≤ 31) || c.toNat = 127

/-- INJECTION_PATTERN of `validation.py`: the characters ; & | backtick $ and newline. -/
def isInjectionChar (c : Char) : Bool :=
  c = ';' || c = '&' || c = '|' || c.toNat = 96 || c = '$' || c = '\n'

/-- The five shell metacharacters named by the spec claim: ; & | backtick $. -/
def isShellMetaChar (c : Char) : Bool :=
  c = ';' || c = '&' || c = '|' || c.toNat = 96 || c = '$'

def containsShellMeta (s : String) : Bool :=
  s.toList.any isShellMetaChar

def MAX_PROMPT_LENGTH : Nat := 10000

/-- `sanitize_prompt` of `validation.py` (called with the default maximum length):
reject empty, strip control characters, reject on injection characters,
truncate, strip surrounding whitespace. -/
def sanitize_prompt (prompt : String) : Except String String :=
  if prompt = "" then Except.error "Prompt cannot be empty"
  else
    let cleaned := String.mk (prompt.toList.filter (fun c => !(isControlChar c)))
    if cleaned.toList.any isInjectionChar then
      Except.error "Prompt contains characters dangerous for injection"
    else
      let truncated :=
        if MAX_PROMPT_LENGTH < cleaned.toList.length then
          String.mk (cleaned.toList.take MAX_PROMPT_LENGTH)
        else cleaned
      Except.ok truncated.trim

/-- `validate_state_number` of `validation.py` (the argument is a `Nat`, so the
negative-input branch of the Python source is unrepresentable). -/
def validate_state_number (state maxStates : Nat) : Except String Nat :=
  if maxStates ≤ state then Except.error "State exceeds the maximum" else Except.ok state

/-- `validate_state_range` of `validation.py`. -/
def validate_state_range (fromState toState maxStates : Nat) : Except String (Nat × Nat) :=
  if maxStates ≤ fromState || maxStates ≤ toState then
    Except.error "States exceed the maximum limit"
  else if fromState = toState then
    Except.error "Transition from a state to the same state is not allowed"
  else Except.ok (fromState, toState)

/-! ## Hashing (`utils/hash.py`): SHA-256 is abstracted as `sha`. -/

/-- `generate_state_hash`: digest of the string
`"{state_number}:{user_prompt}:{branch_name}:{git_diff_info}"`. -/
def generate_state_hash (sha : String → String)
    (user_prompt branch_name git_diff_info : String) (state_number : Nat) : String :=
  sha (toString state_number ++ ":" ++ user_prompt ++ ":" ++ branch_name ++ ":" ++ git_diff_info)

/-! ## SQLite repositories (`repositories/sqlite_repository.py`) -/

/-- Row lookup by primary key, embedding `query.filter_by(state_number=n).first()`. -/
def findRowByNumber : List StateRow → Nat → Option StateRow
  | [], _ => none
  | r :: rest, n => if r.state_number = n then some r else findRowByNumber rest n

/-- Embeds `query.filter_by(hash=h).first() is not None`. -/
def anyHash : List StateRow → String → Bool
  | [], _ => false
  | r :: rest, h => if r.hash = h then true else anyHash rest h

def anyStateNumber : List StateRow → Nat → Bool
  | [], _ => false
  | r :: rest, n => if r.state_number = n then true else anyStateNumber rest n

def anyTransId : List TransitionRow → Nat → Bool
  | [], _ => false
  | t :: rest, n => if t.id = n then true else anyTransId rest n

/-- `SELECT MAX(state_number)`. -/
def maxStateNumber : List StateRow → Option Nat
  | [] => none
  | r :: rest =>
    match maxStateNumber rest with
    | none => some r.state_number
    | some m => some (max r.state_number m)

/-- `SELECT MAX(id)` over transitions. -/
def maxTransId : List TransitionRow → Option Nat
  | [] => none
  | t :: rest =>
    match maxTransId rest with
    | none => some t.id
    | some m => some (max t.id m)

/-- Allocation in `SQLiteStateRepository.create_next`: `(max_state + 1) if max_state is not None else 0`. -/
def nextStateNumber (rows : List StateRow) : Nat :=
  match maxStateNumber rows with
  | none => 0
  | some m => m + 1

/-- Allocation in `SQLiteTransitionRepository.create_next`: `(max_id + 1) if max_id is not None else 1`. -/
def nextTransId (ts : List TransitionRow) : Nat :=
  match maxTransId ts with
  | none => 1
  | some m => m + 1

/-- `SQLiteStateRepository.get_by_number`.  The returned `State` is built from
`state_number, user_prompt, branch_name, git_diff_info, hash, created_at, file_hashes`
only — the `file_hash_deltas` column is not passed, so the object's
`file_hash_deltas` is the constructor default, the empty dict. -/
def get_by_number (st : Storage) (n : Nat) : Option State :=
  match findRowByNumber st.states n with
  | none => none
  | some r =>
    some { state_number := r.state_number, user_prompt := r.user_prompt,
           branch_name := r.branch_name, git_diff_info := r.git_diff_info,
           hash := r.hash, file_hashes := some (r.file_hashes.getD []),
           file_hash_deltas := [] }

/-- Row holding the greatest `state_number` (`ORDER BY state_number DESC ... first()`). -/
def maxRow : List StateRow → Option StateRow
  | [] => none
  | r :: rest =>
    match maxRow rest with
    | none => some r
    | some m => if m.state_number < r.state_number then some r else some m

/-- `SQLiteStateRepository.get_current`: honour the `metadata` row `current_state`
when present, otherwise fall back to the greatest `state_number`.  Both paths
build the `State` without `file_hash_deltas`. -/
def get_current (st : Storage) : Option State :=
  match st.currentMeta with
  | some n => get_by_number st n
  | none =>
    match maxRow st.states with
    | none => none
    | some r =>
      some { state_number := r.state_number, user_prompt := r.user_prompt,
             branch_name := r.branch_name, git_diff_info := r.git_diff_info,
             hash := r.hash, file_hashes := some (r.file_hashes.getD []),
             file_hash_deltas := [] }

/-- `SQLiteStateRepository.create`: if a row with the same `hash` exists, return
success without writing; otherwise insert (`insertOk` models the commit outcome). -/
def sqlite_create (insertOk : Bool) (st : Storage) (s : StateRow) : Bool × Storage :=
  if anyHash st.states s.hash then (true, st)
  else if insertOk then (true, { st with states := st.states ++ [s] })
  else (false, st)

/-- `DELETE FROM states WHERE state_number = n`. -/
def removeStateRows : List StateRow → Nat → List StateRow
  | [], _ => []
  | r :: rest, n =>
    if r.state_number = n then removeStateRows rest n else r :: removeStateRows rest n

/-- `SQLiteStateRepository.delete`: returns whether a row was removed. -/
def sqlite_delete (st : Storage) (n : Nat) : Bool × Storage :=
  let remaining := removeStateRows st.states n
  (decide (remaining.length ≠ st.states.length), { st with states := remaining })

/-- Serialization of an in-memory `State` into a row, as in `create_next`:
`json.dumps(...) if state.file_hashes else None`, so an empty dict is stored as NULL. -/
def stateToRow (s : State) : StateRow :=
  { state_number := s.state_number, user_prompt := s.user_prompt,
    branch_name := s.branch_name, git_diff_info := s.git_diff_info, hash := s.hash,
    file_hashes := match s.file_hashes with
      | none => none
      | some m => if m = [] then none else some m,
    file_hash_deltas := if s.file_hash_deltas = [] then none else some s.file_hash_deltas }

/-- `SQLiteStateRepository.create_next`: inside one immediate transaction,
allocate `max(state_number)+1`, re-check for an existing row, finalize the
hash, and insert.  `insertOk` models the commit outcome; on failure the
transaction rolls back, leaving storage unchanged.  The (mutated) in-memory
state object is returned alongside, as the Python caller observes it. -/
def state_create_next (sha : String → String) (insertOk : Bool) (st : Storage) (s : State) :
    Bool × Storage × State :=
  let next := nextStateNumber st.states
  if anyStateNumber st.states next then (false, st, s)
  else
    let s2 : State :=
      { s with state_number := next,
               hash := generate_state_hash sha s.user_prompt s.branch_name s.git_diff_info next }
    if insertOk then (true, { st with states := st.states ++ [stateToRow s2] }, s2)
    else (false, st, s2)

/-- `SQLiteTransitionRepository.create_next`: allocate `max(id)+1` (1-based) and insert. -/
def transition_create_next (insertOk : Bool) (st : Storage) (t : TransitionRow) :
    Bool × Storage × TransitionRow :=
  let nid := nextTransId st.transitions
  if anyTransId st.transitions nid then (false, st, t)
  else
    let t2 : TransitionRow := { t with id := nid }
    if insertOk then (true, { st with transitions := st.transitions ++ [t2] }, t2)
    else (false, st, t2)

/-! ## Delta engine (`services/git_manager.py`) -/

/-- The delta construction inside `GitManager.compute_changes_since_last_state`
(non-genesis branch, lines 609-622): one pass over `current_hashes` keeping
new or changed paths, then one pass over `last_state_file_hashes` marking
vanished paths with the tombstone `None`. -/
def compute_delta (last current : List (String × String)) : List (String × Option String) :=
  (current.filterMap (fun pc =>
     if lookupA last pc.1 = some pc.2 then none else some (pc.1, some pc.2)))
  ++ (last.filterMap (fun pl =>
     match lookupA current pl.1 with
     | some _ => none
     | none => some (pl.1, (none : Option String))))

/-- The `git_diff_info` payload assembled by `compute_changes_since_last_state`. -/
structure DiffInfo where
  added : List String
  modified : List String
  deleted : List String
  content_diffs : List (String × String)
deriving DecidableEq

/-- Filesystem access performed by `compute_changes_since_last_state`:
readability of files (returning their contents) and `difflib.unified_diff`
joined with newlines (`none` when the diff is empty), together with the
`_should_process_file` ignore/binary predicate. -/
structure FsOracle where
  shouldProcess : String → Bool
  projectRead : String → Option String
  volumeRead : String → Option String
  unifiedDiff : String → String → String → Option String

def jsonQuote (s : String) : String := "\"" ++ s ++ "\""

def joinComma : List String → String
  | [] => ""
  | [x] => x
  | x :: xs => x ++ "," ++ joinComma xs

/-- Models `json.dumps` of the diff payload (string escaping elided; the result
is only ever fed to the abstract digest function). -/
def encodeDiffInfo (d : DiffInfo) : String :=
  "\x7b" ++ jsonQuote "added" ++ ":[" ++ joinComma (d.added.map jsonQuote) ++ "]," ++
    jsonQuote "modified" ++ ":[" ++ joinComma (d.modified.map jsonQuote) ++ "]," ++
    jsonQuote "deleted" ++ ":[" ++ joinComma (d.deleted.map jsonQuote) ++ "]," ++
    jsonQuote "content_diffs" ++ ":\x7b" ++
    joinComma (d.content_diffs.map (fun kv => jsonQuote kv.1 ++ ":" ++ jsonQuote kv.2)) ++
    "\x7d\x7d"

/-- `GitManager.compute_changes_since_last_state`.  The directory scan
(`get_directory_hashes`) is performed by the caller's environment and enters
as `current_hashes`; file reads and diffing go through `fs`. -/
def compute_changes_since_last_state (fs : FsOracle) (volumeCodebaseExists is_genesis : Bool)
    (current_hashes last_state_file_hashes : List (String × String)) :
    String × List (String × Option String) :=
  let delta_hashes :=
    if is_genesis then current_hashes.map (fun ph => (ph.1, some ph.2))
    else compute_delta last_state_file_hashes current_hashes
  let new_files :=
    if is_genesis then current_hashes.map Prod.fst
    else current_hashes.filterMap (fun ph =>
      if (lookupA last_state_file_hashes ph.1).isNone then some ph.1 else none)
  let changed_files :=
    if is_genesis then []
    else current_hashes.filterMap (fun ph =>
      match lookupA last_state_file_hashes ph.1 with
      | some h => if h = ph.2 then none else some ph.1
      | none => none)
  let deleted_files :=
    if is_genesis then []
    else last_state_file_hashes.filterMap (fun pl =>
      if (lookupA current_hashes pl.1).isNone then some pl.1 else none)
  let content1 :=
    if volumeCodebaseExists && !is_genesis then
      changed_files.filterMap (fun p =>
        match fs.projectRead p, fs.volumeRead p with
        | some newC, some oldC =>
          if fs.shouldProcess p then
            match fs.unifiedDiff p oldC newC with
            | some d => some (p, d)
            | none => none
          else none
        | _, _ => none)
    else []
  let content2 :=
    if !is_genesis then
      new_files.filterMap (fun p =>
        match fs.projectRead p with
        | some c => if fs.shouldProcess p && !(c = "") then some (p, c) else none
        | none => none)
    else []
  let diff_data : DiffInfo :=
    { added := new_files, modified := changed_files, deleted := deleted_files,
      content_diffs := content1 ++ content2 }
  (encodeDiffInfo diff_data, delta_hashes)

/-- `GitManager.sync_project_to_volume` — the source is a placeholder that
returns `True` without copying anything (its body is a TODO). -/
def sync_project_to_volume (source_tree volume_tree : List (String × String)) :
    Bool × List (String × String) :=
  (true, volume_tree)

/-! ## State service (`services/state_service.py`) -/

/-- Applying one `file_hash_deltas` dict to a full-hash dict: assignment for a
digest, `pop` for a tombstone (the loop bodies at lines 382-386 / 457-461). -/
def applyDeltas (hashes : List (String × String)) (deltas : List (String × Option String)) :
    List (String × String) :=
  deltas.foldl (fun acc kv =>
    match kv.2 with
    | none => eraseKey acc kv.1
    | some v => setKey acc kv.1 v) hashes

/-- `StateService._get_previous_state_full_hashes`: start from the genesis
`file_hashes`, then for `k = 1 .. current-1` fetch state `k` through
`state_repo.get_by_number` and apply its (nonempty) `file_hash_deltas`.
`none` embeds the `StateNotFoundError` raised when genesis is missing. -/
def get_previous_state_full_hashes (st : Storage) (current_state : State) :
    Option (List (String × String)) :=
  if current_state.state_number = 0 then some []
  else
    match get_by_number st 0 with
    | none => none
    | some genesis =>
      some ((List.range' 1 (current_state.state_number - 1)).foldl
        (fun acc k =>
          match get_by_number st k with
          | some s => if s.file_hash_deltas = [] then acc else applyDeltas acc s.file_hash_deltas
          | none => acc) (genesis.file_hashes.getD []))

/-- Follows the spec's words (§4.4 Reconstruction): `fullHashesAt(n)` starts
with genesis's `file_hash_deltas` and applies `delta_k` for `k = 1..n`,
assignment for a digest and deletion for a tombstone.  Stated over the stored
rows; used to compare the service's reconstruction against the specification. -/
def fullHashesAtSpec (st : Storage) (n : Nat) : Option (List (String × String)) :=
  match findRowByNumber st.states 0 with
  | none => none
  | some g =>
    let start := (g.file_hash_deltas.getD []).filterMap (fun kv =>
      match kv.2 with
      | some v => some (kv.1, v)
      | none => none)
    some ((List.range' 1 n).foldl
      (fun acc k =>
        match findRowByNumber st.states k with
        | some r => applyDeltas acc (r.file_hash_deltas.getD [])
        | none => acc) start)

/-- Commit outcomes of the repository calls issued by one sequential
transition: the snapshot insert, the edge insert, and the compensating
delete used when the edge insert fails. -/
structure FaultSchedule where
  stateInsertOk : Bool
  transInsertOk : Bool
  deleteOk : Bool
deriving DecidableEq

/-- `StateService._create_state_and_transition_atomic`: sanitize the prompt,
create the snapshot via `state_repo.create_next`, then the edge via
`transition_repo.create_next`; when the edge insert fails, issue
`state_repo.delete(new_state.state_number)` with its result ignored. -/
def create_state_and_transition_atomic (sha : String → String) (f : FaultSchedule)
    (st : Storage) (user_prompt diff_info : String) (current_state : State)
    (file_hashes : Option (List (String × String)))
    (file_hash_deltas : List (String × Option String)) : Bool × Option State × Storage :=
  match sanitize_prompt user_prompt with
  | Except.error _ => (false, none, st)
  | Except.ok sanitized =>
    let new_state : State :=
      { state_number := 0, user_prompt := sanitized,
        branch_name := current_state.branch_name, git_diff_info := diff_info,
        hash := "", file_hashes := file_hashes, file_hash_deltas := file_hash_deltas }
    match state_create_next sha f.stateInsertOk st new_state with
    | (false, _, _) => (false, none, st)
    | (true, st1, ns) =>
      let t : TransitionRow :=
        { id := 0, current_state := current_state.state_number,
          next_state := ns.state_number, user_prompt := some sanitized }
      match transition_create_next f.transInsertOk st1 t with
      | (true, st2, _) => (true, some ns, st2)
      | (false, _, _) =>
        (false, none, if f.deleteOk then (sqlite_delete st1 ns.state_number).2 else st1)

/-- Environment of one `new_state_transition` call: the init flag, presence of
`volumePath/codebase`, the fingerprint scans of the project and of the volume
tree, filesystem access for diffing, the repository fault outcomes — and the
branch name the C3 detection policy would report at this moment (recorded here
because the source never consults it during a sequential transition). -/
structure TransitionEnv where
  initialized : Bool
  volumeCodebaseExists : Bool
  detectedBranch : String
  currentHashes : List (String × String)
  volumeHashes : List (String × String)
  fs : FsOracle
  faults : FaultSchedule

/-- `StateService.new_state_transition`: guard on the init flag, read the
current state, reconstruct the previous full hashes (falling back to a scan of
the volume tree when genesis is missing), compute the delta, and run the
atomic create.  The post-commit `sync_project_to_volume` call cannot alter
storage (it is a no-op placeholder) and its failure is only logged. -/
def new_state_transition (sha : String → String) (env : TransitionEnv) (st : Storage)
    (user_prompt : String) : Bool × Option State × Storage :=
  if !env.initialized then (false, none, st)
  else
    match get_current st with
    | none => (false, none, st)
    | some current_state =>
      let last_hashes :=
        match get_previous_state_full_hashes st current_state with
        | some h => h
        | none => if env.volumeCodebaseExists then env.volumeHashes else []
      let res := compute_changes_since_last_state env.fs env.volumeCodebaseExists false
        env.currentHashes last_hashes
      create_state_and_transition_atomic sha env.faults st user_prompt res.1
        current_state none res.2

/-- Python's `x or default` applied to an optional string: both `None` and the
empty string are falsy and select the default. -/
def pyOrString (x : Option String) (default : String) : String :=
  match x with
  | none => default
  | some s => if s = "" then default else s

/-- `StateService.arbitrary_state_transition`: validate the target, skip the
range check when the target equals the current state, replace a placeholder
prompt on the in-memory target object (never written back), and append the
edge through `transition_repo.create_next` with the caller prompt defaulted by
`user_prompt or "Arbitrary transition"` but never sanitized.
No `set_current` call is made anywhere in the function. -/
def arbitrary_state_transition (insertOk initialized : Bool) (st : Storage)
    (next_state : Nat) (user_prompt : Option String) : Bool × Option State × Storage :=
  if !initialized then (false, none, st)
  else
    match get_current st with
    | none => (false, none, st)
    | some current_state =>
      let max_states := st.states.length
      match validate_state_number next_state max_states with
      | Except.error _ => (false, none, st)
      | Except.ok _ =>
        match get_by_number st next_state with
        | none => (false, none, st)
        | some target_state =>
          let rangeOk : Bool :=
            if current_state.state_number = next_state then true
            else
              match validate_state_range current_state.state_number next_state max_states with
              | Except.ok _ => true
              | Except.error _ => false
          if !rangeOk then (false, none, st)
          else
            let transition_prompt := pyOrString user_prompt "Arbitrary transition"
            let target2 : State :=
              if target_state.user_prompt = "" ∨ target_state.user_prompt = "Arbitrary transition"
              then
                { target_state with user_prompt :=
                    match sanitize_prompt transition_prompt with
                    | Except.ok sp => sp
                    | Except.error _ => "Arbitrary transition" }
              else target_state
            let t : TransitionRow :=
              { id := 0, current_state := current_state.state_number,
                next_state := target_state.state_number, user_prompt := some transition_prompt }
            match transition_create_next insertOk st t with
            | (false, _, _) => (false, none, st)
            | (true, st2, _) => (true, some target2, st2)

/-! ## Lock retry (`utils/retry.py` with `repositories/sqlite_repository.py`) -/

/-- Per-attempt outcome of the underlying database interaction. -/
inductive DbAttempt where
  | ok : DbAttempt
  | locked : DbAttempt
  | failOther : DbAttempt
deriving DecidableEq

/-- Exceptions as seen by the `retry_on_lock` wrapper: an `OperationalError`
whose message contains "database is locked", any other `OperationalError`,
or a non-operational exception. -/
inductive PyRaised where
  | opLocked : PyRaised
  | opOther : PyRaised
  | nonOperational : PyRaised
deriving DecidableEq

/-- The body of the decorated `SQLiteStateRepository.create_next` (and likewise
the transition variant): every `OperationalError` — lock contention included —
is caught inside the method, rolled back and converted into a `False` return,
so no exception ever escapes to the wrapper. -/
def create_next_attempt : DbAttempt → Except PyRaised Bool
  | DbAttempt.ok => Except.ok true
  | DbAttempt.locked => Except.ok false
  | DbAttempt.failOther => Except.ok false

/-- The loop of `retry_on_lock` (`utils/retry.py`): run the body; retry only
when it raises an `OperationalError` containing "database is locked" and
attempts remain; re-raise other errors immediately and the last lock error
when attempts are exhausted.  Returns the outcome and the number of attempts
performed. -/
def retry_on_lock_go {α : Type} (body : Nat → Except PyRaised α) :
    Nat → Nat → Except PyRaised α × Nat
  | attempt, 0 => (body attempt, attempt + 1)
  | attempt, Nat.succ remaining =>
    match body attempt with
    | Except.ok v => (Except.ok v, attempt + 1)
    | Except.error PyRaised.opLocked => retry_on_lock_go body (attempt + 1) remaining
    | Except.error e => (Except.error e, attempt + 1)

/-- `retry_on_lock(max_retries)` applied to a body: `max_retries + 1` total attempts. -/
def retry_on_lock_run {α : Type} (maxRetries : Nat) (body : Nat → Except PyRaised α) :
    Except PyRaised α × Nat :=
  retry_on_lock_go body 0 maxRetries

/-- The decorated allocator as deployed: `@retry_on_lock(max_retries=5)` wrapped
around a body that swallows `OperationalError` internally.  `sched` gives the
database outcome of each attempt. -/
def sqlite_create_next_retry (sched : Nat → DbAttempt) : Except PyRaised Bool × Nat :=
  retry_on_lock_run 5 (fun k => create_next_attempt (sched k))

/-! ## Concrete fixtures used by the claim theorems -/

/-- Genesis row of the three-state fixture: full hashes stored in both columns. -/
def rowG : StateRow :=
  { state_number := 0, user_prompt := "Genesis state - State machine initialized",
    branch_name := "main", git_diff_info := "", hash := "hgen",
    file_hashes := some [("a", "h0")], file_hash_deltas := some [("a", some "h0")] }

/-- State 1 of the fixture: delta re-hashing file `a`. -/
def rowOne : StateRow :=
  { state_number := 1, user_prompt := "edit a", branch_name := "main",
    git_diff_info := "", hash := "hone",
    file_hashes := none, file_hash_deltas := some [("a", some "h1")] }

/-- State 2 of the fixture: delta adding file `b`. -/
def rowTwo : StateRow :=
  { state_number := 2, user_prompt := "add b", branch_name := "main",
    git_diff_info := "", hash := "htwo",
    file_hashes := none, file_hash_deltas := some [("b", some "hb")] }

/-- Storage after two sequential transitions past genesis. -/
def stThree : Storage := { states := [rowG, rowOne, rowTwo], transitions := [], currentMeta := none }

/-- Row `n` of the four-state jump fixture. -/
def mkRow (n : Nat) (prompt : String) : StateRow :=
  { state_number := n, user_prompt := prompt, branch_name := "main",
    git_diff_info := "", hash := "h" ++ toString n,
    file_hashes := if n = 0 then some [("a", "h0")] else none,
    file_hash_deltas := if n = 0 then some [("a", some "h0")] else none }

/-- Storage with snapshots 0..3 and no transitions; current is 3 (the maximum). -/
def stJump : Storage :=
  { states := [mkRow 0 "Genesis", mkRow 1 "s1", mkRow 2 "s2", mkRow 3 "s3"],
    transitions := [], currentMeta := none }

/-- Filesystem oracle under which no file is readable (content diffs come out empty). -/
def fsNone : FsOracle :=
  { shouldProcess := fun _ => true, projectRead := fun _ => none,
    volumeRead := fun _ => none, unifiedDiff := fun _ _ _ => none }

/-- Environment of the sequential-transition fixture: the working tree now hashes
to `h2` for file `a`, and the branch-detection policy would report `feature-x`. -/
def envSeq : TransitionEnv :=
  { initialized := true, volumeCodebaseExists := true, detectedBranch := "feature-x",
    currentHashes := [("a", "h2")], volumeHashes := [], fs := fsNone,
    faults := { stateInsertOk := true, transInsertOk := true, deleteOk := true } }

/-- The in-memory current state of `stJump` as `get_current` returns it. -/
def curS3 : State :=
  { state_number := 3, user_prompt := "s3", branch_name := "main", git_diff_info := "",
    hash := "h3", file_hashes := some [], file_hash_deltas := [] }


/-! ## Helper lemmas -/

theorem maxStateNumber_eq_none (rows : List StateRow) :
    maxStateNumber rows = none → rows = [] := by
  cases rows with
  | nil => intro _; rfl
  | cons r rest =>
    intro h
    unfold maxStateNumber at h
    cases hm : maxStateNumber rest <;> rw [hm] at h <;> cases h

theorem mem_le_maxStateNumber (rows : List StateRow) (r : StateRow) (m : Nat)
    (hr : r ∈ rows) (hm : maxStateNumber rows = some m) : r.state_number ≤ m := by
  induction rows generalizing m with
  | nil => cases hr
  | cons a rest ih =>
    unfold maxStateNumber at hm
    cases hml : maxStateNumber rest with
    | none =>
      rw [hml] at hm
      have hrest := maxStateNumber_eq_none rest hml
      subst hrest
      rcases List.mem_cons.mp hr with h | h
      · subst h
        cases hm
        exact Nat.le_refl _
      · cases h
    | some m0 =>
      rw [hml] at hm
      cases hm
      rcases List.mem_cons.mp hr with h | h
      · subst h
        exact Nat.le_max_left _ _
      · exact Nat.le_trans (ih m0 h hml) (Nat.le_max_right _ _)

theorem state_number_lt_next (rows : List StateRow) (r : StateRow) (hr : r ∈ rows) :
    r.state_number < nextStateNumber rows := by
  unfold nextStateNumber
  cases hm : maxStateNumber rows with
  | none =>
    have := maxStateNumber_eq_none rows hm
    subst this
    cases hr
  | some m =>
    exact Nat.lt_succ_of_le (mem_le_maxStateNumber rows r m hr hm)

theorem anyStateNumber_eq_false (rows : List StateRow) (n : Nat)
    (h : ∀ r ∈ rows, r.state_number ≠ n) : anyStateNumber rows n = false := by
  induction rows with
  | nil => rfl
  | cons a rest ih =>
    unfold anyStateNumber
    rw [if_neg (h a (List.mem_cons_self a rest))]
    exact ih (fun r hr => h r (List.mem_cons_of_mem a hr))

theorem anyStateNumber_next (rows : List StateRow) :
    anyStateNumber rows (nextStateNumber rows) = false :=
  anyStateNumber_eq_false rows _ (fun r hr => Nat.ne_of_lt (state_number_lt_next rows r hr))

theorem maxTransId_eq_none (ts : List TransitionRow) :
    maxTransId ts = none → ts = [] := by
  cases ts with
  | nil => intro _; rfl
  | cons t rest =>
    intro h
    unfold maxTransId at h
    cases hm : maxTransId rest <;> rw [hm] at h <;> cases h

theorem mem_le_maxTransId (ts : List TransitionRow) (t : TransitionRow) (m : Nat)
    (ht : t ∈ ts) (hm : maxTransId ts = some m) : t.id ≤ m := by
  induction ts generalizing m with
  | nil => cases ht
  | cons a rest ih =>
    unfold maxTransId at hm
    cases hml : maxTransId rest with
    | none =>
      rw [hml] at hm
      have hrest := maxTransId_eq_none rest hml
      subst hrest
      rcases List.mem_cons.mp ht with h | h
      · subst h
        cases hm
        exact Nat.le_refl _
      · cases h
    | some m0 =>
      rw [hml] at hm
      cases hm
      rcases List.mem_cons.mp ht with h | h
      · subst h
        exact Nat.le_max_left _ _
      · exact Nat.le_trans (ih m0 h hml) (Nat.le_max_right _ _)

theorem transId_lt_next (ts : List TransitionRow) (t : TransitionRow) (ht : t ∈ ts) :
    t.id < nextTransId ts := by
  unfold nextTransId
  cases hm : maxTransId ts with
  | none =>
    have := maxTransId_eq_none ts hm
    subst this
    cases ht
  | some m =>
    exact Nat.lt_succ_of_le (mem_le_maxTransId ts t m ht hm)

theorem anyTransId_eq_false (ts : List TransitionRow) (n : Nat)
    (h : ∀ t ∈ ts, t.id ≠ n) : anyTransId ts n = false := by
  induction ts with
  | nil => rfl
  | cons a rest ih =>
    unfold anyTransId
    rw [if_neg (h a (List.mem_cons_self a rest))]
    exact ih (fun t ht => h t (List.mem_cons_of_mem a ht))

theorem anyTransId_next (ts : List TransitionRow) :
    anyTransId ts (nextTransId ts) = false :=
  anyTransId_eq_false ts _ (fun t ht => Nat.ne_of_lt (transId_lt_next ts t ht))

theorem removeStateRows_append (xs ys : List StateRow) (n : Nat) :
    removeStateRows (xs ++ ys) n = removeStateRows xs n ++ removeStateRows ys n := by
  induction xs with
  | nil => rfl
  | cons a rest ih =>
    by_cases h : a.state_number = n <;> simp [removeStateRows, h, ih]

theorem removeStateRows_eq_self (xs : List StateRow) (n : Nat)
    (h : ∀ r ∈ xs, r.state_number ≠ n) : removeStateRows xs n = xs := by
  induction xs with
  | nil => rfl
  | cons a rest ih =>
    unfold removeStateRows
    rw [if_neg (h a (List.mem_cons_self a rest))]
    rw [ih (fun r hr => h r (List.mem_cons_of_mem a hr))]

theorem findRowByNumber_number (rows : List StateRow) (n : Nat) (r : StateRow)
    (h : findRowByNumber rows n = some r) : r.state_number = n := by
  induction rows with
  | nil => cases h
  | cons a rest ih =>
    unfold findRowByNumber at h
    by_cases ha : a.state_number = n
    · rw [if_pos ha] at h
      cases h
      exact ha
    · rw [if_neg ha] at h
      exact ih h

theorem get_by_number_state_number (st : Storage) (n : Nat) (s : State)
    (h : get_by_number st n = some s) : s.state_number = n := by
  unfold get_by_number at h
  cases hf : findRowByNumber st.states n with
  | none => rw [hf] at h; cases h
  | some r =>
    rw [hf] at h
    cases h
    exact findRowByNumber_number st.states n r hf

theorem anyHash_append (xs ys : List StateRow) (h : String) :
    anyHash (xs ++ ys) h = (anyHash xs h || anyHash ys h) := by
  induction xs with
  | nil => rfl
  | cons a rest ih =>
    by_cases ha : a.hash = h <;> simp [anyHash, ha, ih]

theorem anyHash_eq_false_forall (xs : List StateRow) (h : String)
    (hf : anyHash xs h = false) : ∀ r ∈ xs, r.hash ≠ h := by
  induction xs with
  | nil => intro r hr; cases hr
  | cons a rest ih =>
    unfold anyHash at hf
    by_cases ha : a.hash = h
    · rw [if_pos ha] at hf
      cases hf
    · rw [if_neg ha] at hf
      intro r hr
      rcases List.mem_cons.mp hr with h1 | h1
      · subst h1; exact ha
      · exact ih hf r h1

theorem sanitize_prompt_error_of_shellMeta (p : String) (h : containsShellMeta p = true) :
    sanitize_prompt p = Except.error "Prompt contains characters dangerous for injection" := by
  obtain ⟨c, hc_mem, hc⟩ := List.any_eq_true.mp h
  have hp : ¬(p = "") := by
    intro he
    subst he
    have : ("" : String).toList = [] := rfl
    rw [this] at hc_mem
    cases hc_mem
  have hctl : isControlChar c = false := by
    simp only [isShellMetaChar, Bool.or_eq_true, decide_eq_true_eq] at hc
    rcases hc with ((((h1 | h1) | h1) | h1) | h1)
    · subst h1; decide
    · subst h1; decide
    · subst h1; decide
    · simp [isControlChar, h1]
    · subst h1; decide
  have hinj : isInjectionChar c = true := by
    simp only [isShellMetaChar, Bool.or_eq_true, decide_eq_true_eq] at hc
    simp only [isInjectionChar, Bool.or_eq_true, decide_eq_true_eq]
    rcases hc with ((((h1 | h1) | h1) | h1) | h1) <;> simp [h1]
  have hmem2 : c ∈ p.toList.filter (fun c => !(isControlChar c)) :=
    List.mem_filter.mpr ⟨hc_mem, by simp [hctl]⟩
  have hany : ((String.mk (p.toList.filter (fun c => !(isControlChar c)))).toList.any
      isInjectionChar) = true :=
    List.any_eq_true.mpr ⟨c, hmem2, hinj⟩
  unfold sanitize_prompt
  rw [if_neg hp]
  simp only [hany, if_true]

theorem atomic_rejects_shellMeta (sha : String → String) (f : FaultSchedule) (st : Storage)
    (up di : String) (cur : State) (fh : Option (List (String × String)))
    (fd : List (String × Option String)) (h : containsShellMeta up = true) :
    create_state_and_transition_atomic sha f st up di cur fh fd = (false, none, st) := by
  unfold create_state_and_transition_atomic
  rw [sanitize_prompt_error_of_shellMeta up h]

/-- Claim C2 (amended): the snapshot and edge inserts are two separate
repository transactions with a best-effort compensating delete; whenever a
sequential transition fails and the compensating delete (when reached) is able
to commit, storage afterwards equals storage before the call. -/
theorem c2_failed_transition_leaves_storage (sha : String → String) (f : FaultSchedule)
    (st : Storage) (up di : String) (cur : State) (fh : Option (List (String × String)))
    (fd : List (String × Option String))
    (h1 : (create_state_and_transition_atomic sha f st up di cur fh fd).1 = false)
    (h2 : f.deleteOk = true) :
    (create_state_and_transition_atomic sha f st up di cur fh fd).2.2 = st := by
  obtain ⟨si, ti, dk⟩ := f
  simp only at h2
  subst h2
  cases hs : sanitize_prompt up with
  | error e => simp [create_state_and_transition_atomic, hs]
  | ok sp =>
    rw [create_state_and_transition_atomic, hs] at h1 ⊢
    simp only [state_create_next, anyStateNumber_next, Bool.false_eq_true, if_false] at h1 ⊢
    cases si with
    | false => simp
    | true =>
      simp only [if_true] at h1 ⊢
      simp only [transition_create_next, anyTransId_next, Bool.false_eq_true, if_false] at h1 ⊢
      cases ti with
      | true => simp at h1
      | false =>
        simp only [if_true, sqlite_delete]
        rw [removeStateRows_append]
        rw [removeStateRows_eq_self st.states _
          (fun r hr => Nat.ne_of_lt (state_number_lt_next st.states r hr))]
        simp [removeStateRows, stateToRow]

/-- Claim C4 (amended): a jump whose target equals the current state number is
accepted whenever the target is a valid existing state — the same-state range
check is skipped exactly in that case — and a self-loop edge
`(current → current)` carrying the transition prompt — the caller's prompt
defaulted to "Arbitrary transition" when absent or empty — is appended to
storage. -/
theorem c4_self_jump_accepted (st : Storage) (p : Option String) (cur target : State)
    (h1 : get_current st = some cur)
    (h2 : get_by_number st cur.state_number = some target)
    (h3 : cur.state_number < st.states.length) :
    (arbitrary_state_transition true true st cur.state_number p).1 = true ∧
    (arbitrary_state_transition true true st cur.state_number p).2.2.transitions =
      st.transitions ++
        [{ id := nextTransId st.transitions, current_state := cur.state_number,
           next_state := cur.state_number,
           user_prompt := some (pyOrString p "Arbitrary transition") }] := by
  have htn := get_by_number_state_number st cur.state_number target h2
  rw [arbitrary_state_transition]
  simp only [Bool.not_true, Bool.false_eq_true, if_false]
  rw [h1]
  simp only [validate_state_number]
  rw [if_neg (Nat.not_le.mpr h3)]
  rw [h2]
  simp only [if_pos rfl, Bool.not_true, Bool.false_eq_true, if_false]
  simp only [transition_create_next, anyTransId_next, Bool.false_eq_true, if_false, if_true]
  rw [htn]
  simp

theorem ne_empty_of_containsShellMeta (p : String) (h : containsShellMeta p = true) :
    ¬(p = "") := by
  obtain ⟨c, hc_mem, _⟩ := List.any_eq_true.mp h
  intro he
  subst he
  have hnil : ("" : String).toList = [] := rfl
  rw [hnil] at hc_mem
  cases hc_mem

/-- Claim C8 (amended): a prompt containing one of the shell metacharacters
; & | backtick $ makes every sequential transition fail with storage returned
unchanged, but an arbitrary transition does not validate the edge prompt: the
call succeeds and the edge is appended carrying the raw prompt (a metacharacter
prompt is nonempty, so the `or`-defaulting to "Arbitrary transition" does not
apply). -/
theorem c8_prompt_validation_asymmetry :
    (∀ (sha : String → String) (env : TransitionEnv) (st : Storage) (p : String),
      containsShellMeta p = true →
      new_state_transition sha env st p = (false, none, st))
    ∧ (∀ (st : Storage) (t : Nat) (p : String) (cur target : State),
      containsShellMeta p = true →
      get_current st = some cur →
      get_by_number st t = some target →
      cur.state_number ≠ t →
      t < st.states.length →
      cur.state_number < st.states.length →
      (arbitrary_state_transition true true st t (some p)).1 = true ∧
      (arbitrary_state_transition true true st t (some p)).2.2.transitions =
        st.transitions ++
          [{ id := nextTransId st.transitions, current_state := cur.state_number,
             next_state := t, user_prompt := some p }]) := by
  constructor
  · intro sha env st p h
    rw [new_state_transition]
    cases hi : env.initialized with
    | false => simp [hi]
    | true =>
      simp only [hi, Bool.not_true, Bool.false_eq_true, if_false]
      cases hg : get_current st with
      | none => rfl
      | some cur =>
        exact atomic_rejects_shellMeta sha env.faults st p _ cur none _ h
  · intro st t p cur target hp h1 h2 hne h4 h5
    have htn := get_by_number_state_number st t target h2
    have hpne := ne_empty_of_containsShellMeta p hp
    rw [arbitrary_state_transition]
    simp only [Bool.not_true, Bool.false_eq_true, if_false]
    rw [h1]
    simp only [validate_state_number]
    rw [if_neg (Nat.not_le.mpr h4)]
    rw [h2]
    have hvr : validate_state_range cur.state_number t st.states.length =
        Except.ok (cur.state_number, t) := by
      rw [validate_state_range]
      rw [if_neg (by simp [Nat.not_le.mpr h4, Nat.not_le.mpr h5])]
      rw [if_neg hne]
    rw [if_neg hne, hvr]
    simp only [Bool.not_true, Bool.false_eq_true, if_false]
    simp only [transition_create_next, anyTransId_next, Bool.false_eq_true, if_false, if_true]
    rw [htn]
    simp [pyOrString, hpne]

theorem lookupA_append {α : Type} (xs ys : List (String × α)) (k : String) :
    lookupA (xs ++ ys) k =
      match lookupA xs k with
      | some v => some v
      | none => lookupA ys k := by
  induction xs with
  | nil => rfl
  | cons a l ih =>
    by_cases h : a.1 = k <;> simp [lookupA, h, ih]

theorem lookupA_eq_none_of_forall {α : Type} (m : List (String × α)) (p : String)
    (h : ∀ q ∈ m, q.1 ≠ p) : lookupA m p = none := by
  induction m with
  | nil => rfl
  | cons a l ih =>
    unfold lookupA
    rw [if_neg (h a (List.mem_cons_self a l))]
    exact ih (fun q hq => h q (List.mem_cons_of_mem a hq))

theorem keysNodup_cons {α : Type} (a : String × α) (l : List (String × α))
    (h : keysNodup (a :: l)) : (∀ q ∈ l, q.1 ≠ a.1) ∧ keysNodup l := by
  unfold keysNodup at h ⊢
  rw [List.map_cons, List.nodup_cons] at h
  refine ⟨fun q hq he => h.1 ?_, h.2⟩
  rw [← he]
  exact List.mem_map_of_mem Prod.fst hq

theorem lookupA_changed_entries (last current : List (String × String)) (p : String)
    (hc : keysNodup current) :
    lookupA (current.filterMap (fun pc =>
        if lookupA last pc.1 = some pc.2 then none else some (pc.1, some pc.2))) p =
      match lookupA current p with
      | some h => if lookupA last p = some h then none else some (some h)
      | none => none := by
  induction current with
  | nil => rfl
  | cons a l ih =>
    obtain ⟨hfresh, hnd⟩ := keysNodup_cons a l hc
    have hskip : (∀ q ∈ l, q.1 ≠ a.1) →
        lookupA (l.filterMap (fun pc =>
          if lookupA last pc.1 = some pc.2 then none else some (pc.1, some pc.2))) a.1 = none := by
      intro hf
      apply lookupA_eq_none_of_forall
      intro q hq
      obtain ⟨x, hx_mem, hx⟩ := List.mem_filterMap.mp hq
      by_cases hcond : lookupA last x.1 = some x.2
      · rw [if_pos hcond] at hx; cases hx
      · rw [if_neg hcond] at hx
        cases hx
        exact hf x hx_mem
    by_cases hp : a.1 = p
    · subst hp
      by_cases hcond : lookupA last a.1 = some a.2
      · rw [List.filterMap_cons_none]
        · rw [hskip hfresh]
          simp [lookupA, hcond]
        · rw [if_pos hcond]
      · rw [List.filterMap_cons_some (by rw [if_neg hcond])]
        simp [lookupA, hcond]
    · have hstep : lookupA ((a :: l).filterMap (fun pc =>
          if lookupA last pc.1 = some pc.2 then none else some (pc.1, some pc.2))) p =
          lookupA (l.filterMap (fun pc =>
            if lookupA last pc.1 = some pc.2 then none else some (pc.1, some pc.2))) p := by
        by_cases hcond : lookupA last a.1 = some a.2
        · rw [List.filterMap_cons_none]
          rw [if_pos hcond]
        · rw [List.filterMap_cons_some (by rw [if_neg hcond])]
          simp only [lookupA]
          rw [if_neg hp]
      rw [hstep, ih hnd]
      have hcons : lookupA (a :: l) p = lookupA l p := by
        simp only [lookupA]
        rw [if_neg hp]
      rw [hcons]

theorem lookupA_deleted_entries (current last : List (String × String)) (p : String)
    (hl : keysNodup last) :
    lookupA (last.filterMap (fun pl =>
        match lookupA current pl.1 with
        | some _ => none
        | none => some (pl.1, (none : Option String)))) p =
      match lookupA last p with
      | none => none
      | some _ =>
        match lookupA current p with
        | some _ => none
        | none => some none := by
  induction last with
  | nil => rfl
  | cons a l ih =>
    obtain ⟨hfresh, hnd⟩ := keysNodup_cons a l hl
    have hskip : lookupA (l.filterMap (fun pl =>
        match lookupA current pl.1 with
        | some _ => none
        | none => some (pl.1, (none : Option String)))) a.1 = none := by
      apply lookupA_eq_none_of_forall
      intro q hq
      obtain ⟨x, hx_mem, hx⟩ := List.mem_filterMap.mp hq
      cases hcv : lookupA current x.1 with
      | some v => rw [hcv] at hx; cases hx
      | none =>
        rw [hcv] at hx
        cases hx
        exact hfresh x hx_mem
    by_cases hp : a.1 = p
    · subst hp
      cases hcv : lookupA current a.1 with
      | some v =>
        rw [List.filterMap_cons_none]
        · rw [hskip]
          simp [lookupA, hcv]
        · rw [hcv]
      | none =>
        rw [List.filterMap_cons_some (by rw [hcv])]
        simp [lookupA, hcv]
    · have hstep : lookupA ((a :: l).filterMap (fun pl =>
          match lookupA current pl.1 with
          | some _ => none
          | none => some (pl.1, (none : Option String)))) p =
          lookupA (l.filterMap (fun pl =>
            match lookupA current pl.1 with
            | some _ => none
            | none => some (pl.1, (none : Option String)))) p := by
        cases hcv : lookupA current a.1 with
        | some v =>
          rw [List.filterMap_cons_none]
          rw [hcv]
        | none =>
          rw [List.filterMap_cons_some (by rw [hcv])]
          simp only [lookupA]
          rw [if_neg hp]
      rw [hstep, ih hnd]
      have hcons : lookupA (a :: l) p = lookupA l p := by
        simp only [lookupA]
        rw [if_neg hp]
      rw [hcons]

theorem lookupA_compute_delta (last current : List (String × String)) (p : String)
    (hl : keysNodup last) (hc : keysNodup current) :
    lookupA (compute_delta last current) p =
      match lookupA current p, lookupA last p with
      | some h, lv => if lv = some h then none else some (some h)
      | none, some _ => some none
      | none, none => none := by
  unfold compute_delta
  rw [lookupA_append]
  rw [lookupA_changed_entries last current p hc]
  rw [lookupA_deleted_entries current last p hl]
  cases hcur : lookupA current p with
  | some h =>
    by_cases hcond : lookupA last p = some h
    · simp [hcond]
    · simp [hcond]
  | none =>
    cases hlast : lookupA last p <;> simp [hlast]

/-- Claim C6: in a non-genesis delta computation, the delta maps `p` to
`currentHashes[p]` exactly when `p` is new or its digest changed, maps `p` to
the tombstone exactly when `p` vanished from the working tree, and omits `p`
exactly when its digest is unchanged. -/
theorem c6_delta_characterization (last current : List (String × String))
    (hl : keysNodup last) (hc : keysNodup current) (p : String) :
    (∀ h, lookupA (compute_delta last current) p = some (some h) ↔
      (lookupA current p = some h ∧ lookupA last p ≠ some h))
    ∧ (lookupA (compute_delta last current) p = some none ↔
      (lookupA current p = none ∧ (lookupA last p).isSome = true))
    ∧ (∀ h, lookupA current p = some h → lookupA last p = some h →
      lookupA (compute_delta last current) p = none) := by
  have hmain := lookupA_compute_delta last current p hl hc
  rw [hmain]
  cases hcur : lookupA current p with
  | some v =>
    cases hlast : lookupA last p with
    | some w =>
      by_cases hwv : w = v
      · simp [hwv]
      · simp [hwv]
    | none => simp
  | none =>
    cases hlast : lookupA last p with
    | some w => simp
    | none => simp

/-- Claim C10: creating a snapshot whose hash already exists in the states
table returns success without writing, a second `create` of the same snapshot
after a successful one returns success and leaves storage fixed, and `create`
preserves uniqueness of `hash` across the stored snapshots. -/
theorem c10_create_idempotent_by_hash (insertOk insertOk2 : Bool) (st : Storage) (s : StateRow) :
    (anyHash st.states s.hash = true → sqlite_create insertOk st s = (true, st))
    ∧ ((sqlite_create insertOk st s).1 = true →
        sqlite_create insertOk2 (sqlite_create insertOk st s).2 s =
          (true, (sqlite_create insertOk st s).2))
    ∧ ((st.states.map (fun r => r.hash)).Nodup →
        (((sqlite_create insertOk st s).2).states.map (fun r => r.hash)).Nodup) := by
  refine ⟨?_, ?_, ?_⟩
  · intro hex
    rw [sqlite_create, if_pos hex]
  · intro h1
    by_cases hh : anyHash st.states s.hash = true
    · simp [sqlite_create, hh]
    · cases insertOk with
      | false => simp [sqlite_create, hh] at h1
      | true =>
        have hsnd : (sqlite_create true st s).2 = { st with states := st.states ++ [s] } := by
          simp [sqlite_create, hh]
        rw [hsnd]
        have hany : anyHash (st.states ++ [s]) s.hash = true := by
          rw [anyHash_append]
          have : anyHash [s] s.hash = true := by
            unfold anyHash
            rw [if_pos rfl]
          rw [this, Bool.or_true]
        rw [sqlite_create]
        rw [if_pos hany]
  · intro hnd
    by_cases hh : anyHash st.states s.hash = true
    · simpa [sqlite_create, hh] using hnd
    · cases insertOk with
      | false => simpa [sqlite_create, hh] using hnd
      | true =>
        have hforall := anyHash_eq_false_forall st.states s.hash (Bool.eq_false_iff.mpr hh)
        simp only [sqlite_create, hh, Bool.false_eq_true, if_false, if_true]
        rw [List.map_append]
        rw [List.nodup_append]
        refine ⟨hnd, List.nodup_singleton _, ?_⟩
        intro a ha hb
        rw [List.map_singleton, List.mem_singleton] at hb
        subst hb
        obtain ⟨r, hr_mem, hr⟩ := List.mem_map.mp ha
        exact hforall r hr_mem hr

/-- Witness for Claim C10 at a duplicate hash present in the jump fixture. -/
theorem c10_create_witness : sqlite_create true stJump (mkRow 2 "dup") = (true, stJump) :=
  (c10_create_idempotent_by_hash true true stJump (mkRow 2 "dup")).1 (by decide)

theorem retry_go_first_ok {α : Type} (body : Nat → Except PyRaised α) (a r : Nat) (v : α)
    (h : body a = Except.ok v) : retry_on_lock_go body a r = (Except.ok v, a + 1) := by
  cases r <;> simp [retry_on_lock_go, h]

/-- Claim C9: because the deployed `create_next` bodies swallow every
`OperationalError` and return `False`, the `retry_on_lock` wrapper observes a
normal return on the first attempt for every database schedule: a "database is
locked" failure is never retried.  The wrapper itself, fed a body that does
raise a lock error on every attempt, would perform 6 attempts (not 5). -/
theorem c9_lock_errors_never_retried :
    (∀ sched : Nat → DbAttempt,
      sqlite_create_next_retry sched = (create_next_attempt (sched 0), 1))
    ∧ sqlite_create_next_retry (fun _ => DbAttempt.locked) = (Except.ok false, 1)
    ∧ retry_on_lock_run 5 (fun _ => (Except.error PyRaised.opLocked : Except PyRaised Bool))
        = (Except.error PyRaised.opLocked, 6) := by
  refine ⟨fun sched => ?_, rfl, rfl⟩
  obtain ⟨v, hv⟩ : ∃ v, create_next_attempt (sched 0) = Except.ok v := by
    cases h : sched 0 <;> exact ⟨_, rfl⟩
  calc sqlite_create_next_retry sched
      = retry_on_lock_go (fun k => create_next_attempt (sched k)) 0 5 := rfl
    _ = (Except.ok v, 1) := retry_go_first_ok _ 0 5 v hv
    _ = (create_next_attempt (sched 0), 1) := by rw [hv]

/-- Claim C7: the post-commit sync into `volumePath/codebase` is a placeholder
that reports success and copies nothing, so the reference tree does not come
to reflect the current project content. -/
theorem c7_sync_is_noop :
    (∀ src vol : List (String × String), sync_project_to_volume src vol = (true, vol))
    ∧ (sync_project_to_volume [("main.py", "print(hello)")] [("main.py", "print(hi)")]).2
        ≠ [("main.py", "print(hello)")] :=
  ⟨fun _ _ => rfl, by decide⟩

/-- Claim C1: on the three-state fixture the service reconstruction of the
previous state's full hashes returns the genesis map untouched (because
`get_by_number` drops the `file_hash_deltas` column), while the specified fold
of the stored deltas through state 1 yields the updated digest. -/
theorem c1_reconstruction_ignores_deltas :
    ((get_current stThree).map (fun cur => get_previous_state_full_hashes stThree cur)) =
      some (some [("a", "h0")])
    ∧ fullHashesAtSpec stThree 1 = some [("a", "h1")]
    ∧ ((get_current stThree).map (fun cur => get_previous_state_full_hashes stThree cur)) ≠
      some (fullHashesAtSpec stThree 1) := by
  refine ⟨by decide, by decide, by decide⟩

/-- Claim C3: a successful jump from state 3 to state 1 appends the edge but
leaves the `metadata` current-state row absent, so `get_current` still
reports state 3 — the pointer is not moved to the jump target. -/
theorem c3_jump_leaves_current_at_max :
    (arbitrary_state_transition true true stJump 1 (some "back")).1 = true
    ∧ ((arbitrary_state_transition true true stJump 1 (some "back")).2.2).currentMeta = none
    ∧ ((arbitrary_state_transition true true stJump 1 (some "back")).2.2).transitions =
        [{ id := 1, current_state := 3, next_state := 1, user_prompt := some "back" }]
    ∧ ((get_current ((arbitrary_state_transition true true stJump 1 (some "back")).2.2)).map
        (fun s => s.state_number)) = some 3 := by
  refine ⟨by decide, by decide, by decide, by decide⟩

/-- Claim C5: on the three-state fixture a successful sequential transition
stores the branch name copied from the stored current snapshot ("main") even
though the branch-detection policy would report "feature-x" at that moment. -/
theorem c5_branch_copied_from_stored :
    (new_state_transition (fun s => s) envSeq stThree "update code").1 = true
    ∧ ((new_state_transition (fun s => s) envSeq stThree "update code").2.1).map
        (fun s => s.branch_name) = some "main"
    ∧ envSeq.detectedBranch = "feature-x"
    ∧ ((new_state_transition (fun s => s) envSeq stThree "update code").2.1).map
        (fun s => s.branch_name) ≠ some envSeq.detectedBranch := by
  refine ⟨by decide, by decide, rfl, by decide⟩

/-- Counterexample for Claim C2 as stated: the edge insert fails, the
compensating delete also fails, the call reports failure — and the orphan
snapshot row persists, so storage differs from storage before the call. -/
theorem c2_counterexample_not_atomic :
    (create_state_and_transition_atomic (fun s => s)
        { stateInsertOk := true, transInsertOk := false, deleteOk := false } stJump
        "do work" "d" curS3 none [("a", some "h9")]).1 = false
    ∧ (create_state_and_transition_atomic (fun s => s)
        { stateInsertOk := true, transInsertOk := false, deleteOk := false } stJump
        "do work" "d" curS3 none [("a", some "h9")]).2.2 ≠ stJump := by
  refine ⟨by decide, by decide⟩

/-- Witness for Claim C2 (amended): when the compensating delete succeeds,
a failed transition leaves storage unchanged. -/
theorem c2_rollback_witness :
    (create_state_and_transition_atomic (fun s => s)
        { stateInsertOk := true, transInsertOk := false, deleteOk := true } stJump
        "do work" "d" curS3 none [("a", some "h9")]).2.2 = stJump :=
  c2_failed_transition_leaves_storage (fun s => s)
    { stateInsertOk := true, transInsertOk := false, deleteOk := true } stJump
    "do work" "d" curS3 none [("a", some "h9")] (by decide) rfl

/-- Counterexample for Claim C4 as stated: a jump whose target equals the
current state number (3) succeeds and a self-loop edge is written. -/
theorem c4_counterexample_self_loop_written :
    (arbitrary_state_transition true true stJump 3 (some "self")).1 = true
    ∧ ((arbitrary_state_transition true true stJump 3 (some "self")).2.2).transitions =
        [{ id := 1, current_state := 3, next_state := 3, user_prompt := some "self" }] := by
  refine ⟨by decide, by decide⟩

/-- Witness for Claim C4 (amended) on the jump fixture. -/
theorem c4_self_jump_accepted_witness :
    (arbitrary_state_transition true true stJump 3 (some "revisit")).1 = true ∧
    (arbitrary_state_transition true true stJump 3 (some "revisit")).2.2.transitions =
      stJump.transitions ++
        [{ id := nextTransId stJump.transitions, current_state := 3,
           next_state := 3,
           user_prompt := some (pyOrString (some "revisit") "Arbitrary transition") }] :=
  c4_self_jump_accepted stJump (some "revisit") curS3 curS3 (by decide) (by decide) (by decide)

/-- Counterexample for Claim C8 as stated: an arbitrary transition receiving
the prompt "a;b" succeeds, changes storage, and stores the raw prompt on the
written edge. -/
theorem c8_counterexample_metachar_edge :
    (arbitrary_state_transition true true stJump 1 (some "a;b")).1 = true
    ∧ ((arbitrary_state_transition true true stJump 1 (some "a;b")).2.2) ≠ stJump
    ∧ ((arbitrary_state_transition true true stJump 1 (some "a;b")).2.2).transitions =
        [{ id := 1, current_state := 3, next_state := 1, user_prompt := some "a;b" }] := by
  refine ⟨by decide, by decide, by decide⟩

/-- Witness for Claim C8 (amended): a sequential transition with a
metacharacter prompt is rejected with storage unchanged, while an arbitrary
transition with a metacharacter prompt succeeds and stores the raw prompt. -/
theorem c8_validation_asymmetry_witness :
    new_state_transition (fun s => s) envSeq stThree "x&y" = (false, none, stThree)
    ∧ ((arbitrary_state_transition true true stJump 1 (some "x|y")).1 = true
      ∧ (arbitrary_state_transition true true stJump 1 (some "x|y")).2.2.transitions =
          stJump.transitions ++
            [{ id := nextTransId stJump.transitions, current_state := 3,
               next_state := 1, user_prompt := some "x|y" }]) :=
  ⟨c8_prompt_validation_asymmetry.1 (fun s => s) envSeq stThree "x&y" (by decide),
   c8_prompt_validation_asymmetry.2 stJump 1 "x|y" curS3
     { state_number := 1, user_prompt := "s1", branch_name := "main", git_diff_info := "",
       hash := "h1", file_hashes := some [], file_hash_deltas := [] }
     (by decide) (by decide) (by decide) (by decide) (by decide) (by decide)⟩

/-- Witness for Claim C6 on concrete maps: the vanished path `b` receives the
tombstone. -/
theorem c6_delta_witness :
    lookupA (compute_delta [("a", "h0"), ("b", "hb")] [("a", "h1")]) "b" = some none :=
  ((c6_delta_characterization [("a", "h0"), ("b", "hb")] [("a", "h1")]
      (by decide) (by decide) "b").2.1).mpr (by decide)

end CSM
